import Mathlib

/-!
Shallow embedding of the async-handling logic of the vue-pdf components
(Document, Page, Outline, TextLayer, PageCanvas, PageSVG) and of the small
reducer-based asynchronous state machine they share, together with proofs
about the embedded definitions.
-/

namespace VuePdf

/-- A JavaScript `Error` value, as carried by `REJECT` actions and error
callbacks: we keep its `name` and `message` fields, which are the only parts
the components inspect. -/
structure JsError where
  name : String
  message : String
deriving DecidableEq, Repr

/-- The `value` field of the resolver state (shared/hooks, part_000, lines
3-6): either a resolved value `T`, the literal `false` (after `REJECT`), or
`undefined` (initial / after `RESET`). -/
inductive RVal (T : Type) where
  | val (v : T)
  | falseV
  | undef
deriving DecidableEq, Repr

/-- The state of the resolver machine (shared/hooks, part_000, lines 3-6):
`\x7b value, error \x7d` where `error` is `undefined` (`none`) except after a
`REJECT`. -/
structure State (T : Type) where
  value : RVal T
  error : Option JsError
deriving DecidableEq, Repr

/-- The actions of the resolver machine (shared/hooks, part_000, lines 8-11). -/
inductive Action (T : Type) where
  | RESOLVE (v : T)
  | REJECT (e : JsError)
  | RESET
deriving DecidableEq, Repr

/-- The initial state `\x7b value: undefined, error: undefined \x7d` passed by
`useResolver` to `useReducer` (shared/hooks, part_000, line 27). -/
def initialState {T : Type} : State T :=
  { value := .undef, error := none }

/-- The reducer of the async state machine (shared/hooks, part_000, lines
13-24). The TypeScript `default` branch returning `state` is unreachable,
since `Action` has exactly the three constructors. -/
def reducer {T : Type} (_state : State T) (action : Action T) : State T :=
  match action with
  | .RESOLVE v => { value := .val v, error := none }
  | .REJECT e => { value := .falseV, error := some e }
  | .RESET => { value := .undef, error := none }

/-- The states of the resolver machine reachable from `useResolver`'s initial
state by dispatched actions (shared/hooks, part_000, lines 26-28: `useReducer`
starts at `initialState` and every dispatch applies `reducer`). -/
inductive ReducerReachable {T : Type} : State T → Prop where
  | init : ReducerReachable initialState
  | step (s : State T) (a : Action T) :
      ReducerReachable s → ReducerReachable (reducer s a)

/-- The four statuses named by the spec for the async resource. -/
inductive Status4 where
  | notStarted
  | loading
  | loaded
  | errored
deriving DecidableEq, Repr

/-- The three statuses the machine state actually distinguishes. -/
inductive Status3 where
  | loadingOrNotStarted
  | loaded
  | errored
deriving DecidableEq, Repr

/-- The classification of a machine state that `Document.renderContent`
(Document.tsx, lines 437-453) applies to the pdf resolver state: value
`undefined` → show the loading message, value `false` → show the error
message, a resolved value → render the content. -/
def machineStatus {T : Type} (s : State T) : Status3 :=
  match s.value with
  | .undef => .loadingOrNotStarted
  | .falseV => .errored
  | .val _ => .loaded

/-- The kind of content `Document.renderContent` renders. -/
inductive RenderKind where
  | noData
  | loading
  | error
  | content
deriving DecidableEq, Repr

/-- `Document.renderContent` (Document.tsx, lines 428-458): when the `file`
prop is falsy the no-data message is shown regardless of the machine state;
otherwise the pdf resolver state decides between loading (value `undefined`;
the `pdf === null` check there is unreachable, as the pdf resolver is never
resolved with `null`), error (value `false`) and the children. -/
def renderContent {T : Type} (fileTruthy : Bool) (pdf : State T) : RenderKind :=
  if !fileTruthy then .noData
  else
    match pdf.value with
    | .undef => .loading
    | .falseV => .error
    | .val _ => .content

/-- The outcome of a settled asynchronous task: the promise resolved with a
value, or rejected with an error. -/
inductive Completion (T : Type) where
  | resolved (v : T)
  | failed (e : JsError)
deriving DecidableEq, Repr

/-- What a component's promise completion handler does with an outcome:
dispatch an action into a `useResolver` machine, or invoke the host's
success/failure callback directly without any state machine. -/
inductive HandlerStep (T : Type) where
  | dispatch (a : Action T)
  | directCallback (success : Bool)
deriving DecidableEq, Repr

/-- The action the uniform `.then`/`.catch` pattern dispatches for an
outcome: `RESOLVE value` on resolution, `REJECT error` on rejection. -/
def actionOfCompletion {T : Type} : Completion T → Action T
  | .resolved v => .RESOLVE v
  | .failed e => .REJECT e

/-- Document's source resolution completion handlers (Document.tsx, lines
271-277): resolve → `sourceDispatch RESOLVE`, reject →
`sourceDispatch REJECT`. -/
def documentSourceCompletion {T : Type} (o : Completion T) : HandlerStep T :=
  .dispatch (actionOfCompletion o)

/-- Document's getDocument completion handlers (Document.tsx, lines 361-367):
resolve → `pdfDispatch RESOLVE`, reject → `pdfDispatch REJECT`. -/
def documentPdfCompletion {T : Type} (o : Completion T) : HandlerStep T :=
  .dispatch (actionOfCompletion o)

/-- Page's getPage completion handlers (Page.tsx, lines 249-255):
resolve → `pageDispatch RESOLVE`, reject → `pageDispatch REJECT`. -/
def pageCompletion {T : Type} (o : Completion T) : HandlerStep T :=
  .dispatch (actionOfCompletion o)

/-- Outline's getOutline completion handlers (Outline.tsx, lines 112-118):
resolve → `outlineDispatch RESOLVE`, reject → `outlineDispatch REJECT`. -/
def outlineCompletion {T : Type} (o : Completion T) : HandlerStep T :=
  .dispatch (actionOfCompletion o)

/-- TextLayer's getTextContent completion handlers (TextLayer.tsx, lines
106-112): resolve → `textContentDispatch RESOLVE`, reject →
`textContentDispatch REJECT`. -/
def textLayerContentCompletion {T : Type} (o : Completion T) :
    HandlerStep T :=
  .dispatch (actionOfCompletion o)

/-- TextLayer's text-layer render pipeline completion handlers
(TextLayer.tsx, lines 204-244): `pdfjs.renderTextLayer(...)`'s `.then`
appends the end-of-content element, runs the custom text renderer and calls
`onRenderSuccess()` directly, and `.catch(onRenderError)` calls the error
handler directly (TextLayer.tsx, lines 139-157: the `onRenderTextLayerSuccess`
and `onRenderTextLayerError` props) — no action is dispatched into any
machine for this task. -/
def textLayerRenderCompletion {T : Type} (o : Completion T) : HandlerStep T :=
  match o with
  | .resolved _ => .directCallback true
  | .failed _ => .directCallback false

/-- PageSVG's render pipeline completion handlers (part_001, lines 103-121):
a produced SVG element → `svgDispatch RESOLVE`, a rejection of either the
getOperatorList or the getSVG stage → `svgDispatch REJECT`. -/
def pageSVGCompletion {T : Type} (o : Completion T) : HandlerStep T :=
  .dispatch (actionOfCompletion o)

/-- PageCanvas's render completion handlers (PageCanvas.tsx, lines 121-127):
the component declares no `useResolver` at all; `.then` reveals the canvas
and calls `onRenderSuccess()` directly, `.catch(onRenderError)` calls the
error handler directly — no action is dispatched into any machine. -/
def pageCanvasCompletion {T : Type} (o : Completion T) : HandlerStep T :=
  match o with
  | .resolved _ => .directCallback true
  | .failed _ => .directCallback false

/-- The asynchronous tasks the components of C3 perform: each component's
loading task, plus the render pipelines of TextLayer, PageSVG and
PageCanvas. -/
inductive AsyncTask where
  | documentSource
  | documentPdf
  | pageLoad
  | outlineLoad
  | textLayerContent
  | textLayerRender
  | pageSVGRender
  | pageCanvasRender
deriving DecidableEq, Repr

/-- The completion handler of each asynchronous task, as embedded above from
each component's source. -/
def taskCompletionHandler {T : Type} (t : AsyncTask) (o : Completion T) :
    HandlerStep T :=
  match t with
  | .documentSource => documentSourceCompletion o
  | .documentPdf => documentPdfCompletion o
  | .pageLoad => pageCompletion o
  | .outlineLoad => outlineCompletion o
  | .textLayerContent => textLayerContentCompletion o
  | .textLayerRender => textLayerRenderCompletion o
  | .pageSVGRender => pageSVGCompletion o
  | .pageCanvasRender => pageCanvasCompletion o

/-- Whether a handler step dispatches into a `useResolver` machine. -/
def HandlerStep.isDispatch {T : Type} : HandlerStep T → Bool
  | .dispatch _ => true
  | .directCallback _ => false

/-- Modelled from the spec: an event in the lifecycle of one loading effect
and its resolver machine. `src/lib/shared` does not ship the `useEffect`
helper the components call, so the effect contract is modelled from the
spec's lifecycle description: on an input change the effect's cleanup runs
before the effect re-runs for the new input. A `change i` event performs, in
the order the Document/Page/Outline/TextLayer sources lay the effects out,
the cleanup of the previous load (cancelRunningTask / loadingTask.destroy —
Document.tsx 279-281 and 369-371, Page.tsx 257, Outline.tsx 120,
TextLayer.tsx 114), the reset effect's `RESET` dispatch (Document.tsx
198-202 and 334-338, Page.tsx 235-239, Outline.tsx 97-101, TextLayer.tsx
92-96), and the start of the load task for the new input. A `settle id o`
event is the completion of task `id`: per the contract of the cancellable
task wrappers, a cancelled or destroyed task no longer invokes its
`.then`/`.catch` handlers, so it dispatches only when not cancelled. -/
inductive Ev (I T : Type) where
  | change (i : I)
  | settle (id : Nat) (o : Completion T)

/-- Modelled from the spec: the state of one loading effect's lifecycle —
the id counter for tasks, the currently running task and its input, the set
of cancelled (superseded) task ids, the resolver machine state, and a ghost
flag recording whether the current task has dispatched. -/
structure Sys (I T : Type) where
  nextId : Nat
  cur : Option Nat
  curInput : Option I
  cancelled : List Nat
  resolver : State T
  curDispatched : Bool
deriving DecidableEq, Repr

/-- The lifecycle state before the component mounts: no task, resolver at
`useResolver`'s initial state. -/
def sysInit {I T : Type} : Sys I T :=
  { nextId := 0
    cur := none
    curInput := none
    cancelled := []
    resolver := initialState
    curDispatched := false }

/-- Modelled from the spec: one lifecycle step. On `change i`, the cleanup
cancels the previous task, the reset effect dispatches `RESET`, and a fresh
task is started for `i`. On `settle id o`, the task's `.then`/`.catch`
handler dispatches the matching action — unless the task was cancelled (its
handlers are suppressed) or never existed. -/
def sysStep {I T : Type} (s : Sys I T) : Ev I T → Sys I T
  | .change i =>
      { nextId := s.nextId + 1
        cur := some s.nextId
        curInput := some i
        cancelled :=
          match s.cur with
          | some t => t :: s.cancelled
          | none => s.cancelled
        resolver := reducer s.resolver .RESET
        curDispatched := false }
  | .settle id o =>
      if id ∈ s.cancelled then s
      else if id < s.nextId then
        { s with
            resolver := reducer s.resolver (actionOfCompletion o)
            curDispatched := true }
      else s

/-- The lifecycle states reachable from the mount state. -/
inductive SysReachable {I T : Type} : Sys I T → Prop where
  | init : SysReachable sysInit
  | step (s : Sys I T) (e : Ev I T) :
      SysReachable s → SysReachable (sysStep s e)

/-- Lifecycle invariant: every task other than the current one has been
cancelled by the cleanup of some input change. -/
def cancelledInv {I T : Type} (s : Sys I T) : Prop :=
  ∀ id, id < s.nextId → s.cur ≠ some id → id ∈ s.cancelled

/-- The callback a load outcome triggers towards the host application:
the success prop with the loaded value, the error prop with the error, or
nothing. -/
inductive LoadCallback (T : Type) where
  | success (v : T)
  | failure (e : JsError)
  | nothing
deriving DecidableEq, Repr

/-- Document's pdf effect (Document.tsx, lines 380-395, with `onLoadSuccess`
at 304-316 and `onLoadError` at 321-332): when the pdf state value is
`undefined` nothing happens; when it is `false`, `onLoadError` fires the
`onLoadError` prop (when provided) with `pdfError` — the guard for a missing
`pdfError` is the "Impossible, but TypeScript doesn't know that" branch;
otherwise `onLoadSuccess` fires the `onLoadSuccess` prop (when provided)
with the loaded document. The returned `LoadCallback` names the prop that
is invoked and its argument; a prop the host did not provide is simply
skipped at the call site. -/
def documentPdfEffect {T : Type} (st : State T) : LoadCallback T :=
  match st.value with
  | .undef => .nothing
  | .falseV =>
      match st.error with
      | none => .nothing
      | some e => .failure e
  | .val d => .success d

/-- Modelled from the spec: `isCancelException` from `shared/utils`, which is
not under src/ — the predicate recognising the rendering engine's
cancellation exception, which the spec treats as the signal of a cancelled
render task. It tests the error's `name` against the engine's cancellation
exception name. -/
def isCancelException (e : JsError) : Bool :=
  e.name = "RenderingCancelledException"

/-- What a render-failure handler does: whether it emits a warning, and the
error it reports to the host's `onRenderError` prop, if any. -/
structure RenderErrorReport where
  warned : Bool
  reported : Option JsError
deriving DecidableEq, Repr

/-- PageCanvas's `onRenderError` (PageCanvas.tsx, lines 64-74): a
cancellation exception returns immediately (no warning, no callback);
any other error is warned about and passed to the `onRenderError` prop when
the host provided one. -/
def pageCanvasOnRenderError (hasProp : Bool) (e : JsError) :
    RenderErrorReport :=
  if isCancelException e then { warned := false, reported := none }
  else { warned := true, reported := if hasProp then some e else none }

/-- PageSVG's svg effect on the failure side (part_001: effect at lines
128-143, `onRenderError` at 69-84): the handler runs only when the svg state
value is `false`; it reads `svgError` from the state (the `none` case is the
"Impossible" guard), returns silently on a cancellation exception, and
otherwise warns and passes the error to the `onRenderError` prop when
provided. -/
def pageSVGRenderEffect {T : Type} (hasProp : Bool) (st : State T) :
    RenderErrorReport :=
  match st.value with
  | .falseV =>
      match st.error with
      | none => { warned := false, reported := none }
      | some e =>
          if isCancelException e then { warned := false, reported := none }
          else { warned := true, reported := if hasProp then some e else none }
  | _ => { warned := false, reported := none }

/-- Modelled from the spec: `isProvided` from `shared/utils`, which is not
under src/ — a prop is provided when it is neither `undefined` nor `null`.
Numeric props are embedded as `Option Int`, `none` standing for
`undefined`/`null`. -/
def isProvided (x : Option Int) : Bool :=
  x.isSome

/-- The derived `pageIndex` of the Page component (Page.tsx, lines 145-147):
when the `pageNumber` prop is provided it is `pageNumber - 1`, otherwise the
`pageIndex` prop (or `null` via `?? null`). -/
def derivedPageIndex (pageNumberProps pageIndexProps : Option Int) :
    Option Int :=
  if isProvided pageNumberProps then
    match pageNumberProps with
    | some n => some (n - 1)
    | none => none
  else pageIndexProps

/-- The derived `pageNumber` of the Page component (Page.tsx, lines 149-150):
the `pageNumber` prop when present, else `pageIndex + 1` when the `pageIndex`
prop is provided, else `null`. -/
def derivedPageNumber (pageNumberProps pageIndexProps : Option Int) :
    Option Int :=
  match pageNumberProps with
  | some n => some n
  | none =>
      if isProvided pageIndexProps then
        match pageIndexProps with
        | some i => some (i + 1)
        | none => none
      else none

/-- The scale-1 viewport of a loaded page at the effective rotation, as the
rendering engine's `page.getViewport(\x7b scale: 1, rotation \x7d)` reports
it (the engine is the spec's opaque collaborator; only the returned width
and height are used). Dimensions are embedded as rationals. -/
structure ViewportDims where
  width : ℚ
  height : ℚ
deriving DecidableEq, Repr

/-- JavaScript truthiness of an optional numeric prop: defined and nonzero. -/
def truthyNum (x : Option ℚ) : Bool :=
  match x with
  | some q => q != 0
  | none => false

/-- The computed scale of the Page component (Page.tsx, lines 154-179):
`null` when no page is loaded; otherwise `scaleWithDefault * pageScale`,
where `scaleWithDefault` is the `scale` prop defaulted to 1 (both the
destructuring default for `undefined` and the `?? defaultScale` for `null`
collapse to `Option.getD 1`), and `pageScale` is `width / viewport.width`
when the `width` prop is truthy, else `height / viewport.height` when the
`height` prop is truthy, else 1 — the `if (width || height)` / `if (width)` /
`else if (height)` chain tests truthiness, so a width or height of 0 falls
through. -/
def computeScale (scaleProps width height : Option ℚ)
    (page : Option ViewportDims) : Option ℚ :=
  match page with
  | none => none
  | some viewport =>
      let scaleWithDefault := scaleProps.getD 1
      let pageScale :=
        if truthyNum width || truthyNum height then
          if truthyNum width then width.getD 1 / viewport.width
          else if truthyNum height then height.getD 1 / viewport.height
          else 1
        else 1
      some (scaleWithDefault * pageScale)

/-- The reference definition C10 states: factor `width / viewport.width` when
the `width` prop is given, else `height / viewport.height` when only the
`height` prop is given, else 1; multiplied by `scaleProps ?? 1`; `null` when
no page is loaded. -/
def referenceScale (scaleProps width height : Option ℚ)
    (page : Option ViewportDims) : Option ℚ :=
  match page with
  | none => none
  | some viewport =>
      let factor :=
        match width, height with
        | some w, _ => w / viewport.width
        | none, some h => h / viewport.height
        | none, none => 1
      some (scaleProps.getD 1 * factor)

/-- Treat a zero numeric prop as absent, the way JavaScript truthiness tests
do. -/
def givenNonzero (x : Option ℚ) : Option ℚ :=
  match x with
  | some q => if q = 0 then none else some q
  | none => none

/-- A JavaScript value held in a field of a document-source parameter
object: a string, a `PDFDataRangeTransport` instance, an `ArrayBuffer`, the
bytes read from a `Blob`, or any other value (identified by a tag). -/
inductive JSField where
  | str (s : String)
  | transport (t : Nat)
  | buffer (b : Nat)
  | bytes (b : Nat)
  | other (tag : Nat)
deriving DecidableEq, Repr

/-- A parameter object, as `findDocumentSource` inspects it: the optional
`.data`, `.range` and `.url` fields and the remaining parameters (keyed by a
tag). -/
structure FileObj where
  data : Option JSField
  range : Option JSField
  url : Option JSField
  others : List (Nat × JSField)
deriving DecidableEq, Repr

/-- The `file` prop of the Document component, covering every shape
`findDocumentSource` (Document.tsx, lines 204-266) distinguishes:
`undefined`/`null`, a string, a `PDFDataRangeTransport`, an `ArrayBuffer`, a
`Blob` (identified by a tag whose content `loadFromFile` reads), a parameter
object, and the remaining non-object values a host could pass (numbers,
booleans). -/
inductive File where
  | undefinedF
  | nullF
  | strF (s : String)
  | rangeTransport (t : Nat)
  | arrayBuffer (b : Nat)
  | blob (b : Nat)
  | objF (o : FileObj)
  | numF (n : Int)
  | boolF (b : Bool)
deriving DecidableEq, Repr

/-- The resolved document source: `null` or a parameter object. -/
inductive Source where
  | nullS
  | objS (o : FileObj)
deriving DecidableEq, Repr

/-- JavaScript falsiness of a `file` value, as the `if (!file)` guard of
`findDocumentSource` tests it: `undefined`, `null`, the empty string, `0`
and `false` are falsy; objects, transports, buffers and blobs are truthy. -/
def falsy : File → Bool
  | .undefinedF => true
  | .nullF => true
  | .strF s => s == ""
  | .numF n => n == 0
  | .boolF b => !b
  | .rangeTransport _ => false
  | .arrayBuffer _ => false
  | .blob _ => false
  | .objF _ => false

/-- Modelled from the spec: `isDataURI` from `shared/utils`, which is not
under src/ — recognises a data-URI string by its `data:` scheme. -/
def isDataURI (s : String) : Bool :=
  s.startsWith "data:"

/-- The message of the first invariant of `findDocumentSource`
(Document.tsx, lines 244-247). -/
def invalidFileMessage : String :=
  "Invalid parameter in file, need either Uint8Array, string or a parameter object"

/-- The message of the second invariant of `findDocumentSource`
(Document.tsx, lines 249-252). -/
def invalidObjectMessage : String :=
  "Invalid parameter object: need either .data, .range or .url"

/-- `findDocumentSource` of the Document component (Document.tsx, lines
204-266). `conv` stands for `dataURItoByteString` from `shared/utils` (not
under src/, kept abstract since only its application is relevant here);
`.bytes b` is the result of `await loadFromFile(blob)`. A falsy `file`
resolves to `null`; a data-URI string to `{ data }`; any other string to
`{ url }`; a `PDFDataRangeTransport` to `{ range }`; an `ArrayBuffer` to
`{ data }`; a `Blob` in a browser to `{ data }` read from it (outside a
browser a Blob falls through to the object invariants, and having none of
`.data`/`.range`/`.url` it fails the second); a remaining non-object fails
the first invariant; an object without `.data`, `.range` and `.url` fails
the second; an object whose `.url` is a data-URI string becomes
`{ data: conv(url), ...otherParams }` with `.url` removed, where a `data`
key among the other params overrides the converted one (object spread);
any other object is returned as-is. -/
def findDocumentSource (conv : String → String) (isBrowser : Bool)
    (file : File) : Except String Source :=
  if falsy file then .ok .nullS
  else
    match file with
    | .undefinedF => .ok .nullS
    | .nullF => .ok .nullS
    | .strF s =>
        if isDataURI s then
          .ok (.objS
            { data := some (.str (conv s)), range := none, url := none
              others := [] })
        else
          .ok (.objS
            { data := none, range := none, url := some (.str s)
              others := [] })
    | .rangeTransport t =>
        .ok (.objS
          { data := none, range := some (.transport t), url := none
            others := [] })
    | .arrayBuffer b =>
        .ok (.objS
          { data := some (.buffer b), range := none, url := none
            others := [] })
    | .blob b =>
        if isBrowser then
          .ok (.objS
            { data := some (.bytes b), range := none, url := none
              others := [] })
        else .error invalidObjectMessage
    | .objF o =>
        if o.data.isNone && o.range.isNone && o.url.isNone then
          .error invalidObjectMessage
        else
          match o.url with
          | some (.str u) =>
              if isDataURI u then
                .ok (.objS
                  { data := some (o.data.getD (.str (conv u)))
                    range := o.range, url := none, others := o.others })
              else .ok (.objS o)
          | _ => .ok (.objS o)
    | .numF _ => .error invalidFileMessage
    | .boolF _ => .error invalidFileMessage

/-- The reference definition C6 states, clause for clause: `null` when file
is absent; `{ data: dataURItoByteString(file) }` for a data-URI string;
`{ url: file }` for any other string; `{ range: file }` for a
`PDFDataRangeTransport`; `{ data: file }` for an `ArrayBuffer`; `{ data }`
loaded from the Blob for a Blob in a browser; for an object whose `.url` is
a data-URI string, `{ data: byteString, ...otherParams }` with `.url`
removed; the object itself otherwise; and an invariant error exactly for a
non-object not matching the above or an object with none of
`.data`/`.range`/`.url`. -/
def referenceSource (conv : String → String) (isBrowser : Bool)
    (file : File) : Except String Source :=
  match file with
  | .undefinedF => .ok .nullS
  | .nullF => .ok .nullS
  | .strF s =>
      if isDataURI s then
        .ok (.objS
          { data := some (.str (conv s)), range := none, url := none
            others := [] })
      else
        .ok (.objS
          { data := none, range := none, url := some (.str s)
            others := [] })
  | .rangeTransport t =>
      .ok (.objS
        { data := none, range := some (.transport t), url := none
          others := [] })
  | .arrayBuffer b =>
      .ok (.objS
        { data := some (.buffer b), range := none, url := none
          others := [] })
  | .blob b =>
      if isBrowser then
        .ok (.objS
          { data := some (.bytes b), range := none, url := none
            others := [] })
      else .error invalidObjectMessage
  | .objF o =>
      if o.data.isNone && o.range.isNone && o.url.isNone then
        .error invalidObjectMessage
      else
        match o.url with
        | some (.str u) =>
            if isDataURI u then
              .ok (.objS
                { data := some (o.data.getD (.str (conv u)))
                  range := o.range, url := none, others := o.others })
            else .ok (.objS o)
        | _ => .ok (.objS o)
  | .numF _ => .error invalidFileMessage
  | .boolF _ => .error invalidFileMessage

/-- C1: the reducer of the async state machine is history-independent and
matches its action names: for every previous state `s`, `RESOLVE v` yields
`\x7b value: v, error: undefined \x7d`, `REJECT e` yields
`\x7b value: false, error: e \x7d`, and `RESET` yields the initial state of
`useResolver`; in each case the result does not depend on `s`. -/
theorem reducer_history_independent (T : Type) (s s' : State T) (v : T)
    (e : JsError) :
    reducer s (.RESOLVE v) = { value := .val v, error := none } ∧
    reducer s (.REJECT e) = { value := .falseV, error := some e } ∧
    reducer s .RESET = initialState ∧
    reducer s (.RESOLVE v) = reducer s' (.RESOLVE v) ∧
    reducer s (.REJECT e) = reducer s' (.REJECT e) ∧
    reducer s .RESET = reducer s' .RESET :=
  ⟨rfl, rfl, rfl, rfl, rfl, rfl⟩

/-- C2 counterexample: the machine state in which a fresh load is in flight
(the state reached after a `RESET` dispatched when the input changed) is
literally the initial not-started state, so no function of the machine state
can assign `notStarted` to one and `loading` to the other: the 'not started'
and 'loading' statuses do not correspond to distinguishable reachable states. -/
theorem notStarted_loading_same_state :
    (reducer (reducer (initialState (T := Nat)) (.RESOLVE 0)) .RESET
      = initialState) ∧
    ¬ ∃ f : State Nat → Status4,
        f initialState = Status4.notStarted ∧
        f (reducer (reducer (initialState (T := Nat)) (.RESOLVE 0)) .RESET)
          = Status4.loading := by
  refine ⟨rfl, ?_⟩
  rintro ⟨f, h1, h2⟩
  have h3 : reducer (reducer (initialState (T := Nat)) (.RESOLVE 0)) .RESET
      = initialState := rfl
  rw [h3, h1] at h2
  exact absurd h2 (by decide)

/-- C2 (amended): every state reachable from `useResolver`'s initial state
determines which of three statuses the resource is in — value `undefined`
(covering both 'not started' and 'loading', which share the state
`initialState`), 'loaded' (a resolved value, error `undefined`), and
'errored' (value `false` with the rejection error) — and, with a truthy
`file` prop, `Document.renderContent` renders exactly the message of that
status; the 'not started' display (`noData`) is decided by the `file` prop
alone, not by the machine state. -/
theorem reachable_states_determine_three_statuses (T : Type) (s : State T)
    (hr : ReducerReachable s) :
    (machineStatus s = .loadingOrNotStarted ↔ s = initialState) ∧
    (machineStatus s = .loaded ↔ ∃ v, s = { value := .val v, error := none }) ∧
    (machineStatus s = .errored ↔
      ∃ e, s = { value := .falseV, error := some e }) ∧
    renderContent false s = .noData ∧
    renderContent true s =
      (match machineStatus s with
        | .loadingOrNotStarted => .loading
        | .errored => .error
        | .loaded => .content) := by
  induction hr with
  | init =>
      refine ⟨by simp [machineStatus, initialState], ?_, ?_, rfl, rfl⟩
      · simp [machineStatus, initialState, State.mk.injEq]
      · simp [machineStatus, initialState, State.mk.injEq]
  | step s a _ _ =>
      cases a with
      | RESOLVE v =>
          refine ⟨?_, ?_, ?_, rfl, rfl⟩
          · simp [machineStatus, reducer, initialState, State.mk.injEq]
          · simp only [machineStatus, reducer]
            constructor
            · intro _; exact ⟨v, rfl⟩
            · intro _; trivial
          · simp [machineStatus, reducer, State.mk.injEq]
      | REJECT e =>
          refine ⟨?_, ?_, ?_, rfl, rfl⟩
          · simp [machineStatus, reducer, initialState, State.mk.injEq]
          · simp [machineStatus, reducer, State.mk.injEq]
          · simp only [machineStatus, reducer]
            constructor
            · intro _; exact ⟨e, rfl⟩
            · intro _; trivial
      | RESET =>
          refine ⟨?_, ?_, ?_, rfl, rfl⟩
          · simp [machineStatus, reducer, initialState]
          · simp [machineStatus, reducer, State.mk.injEq]
          · simp [machineStatus, reducer, State.mk.injEq]

/-- Witness for the amended C2 theorem, at the initial (not started) state. -/
theorem reachable_states_determine_three_statuses_witness :
    machineStatus (initialState (T := Nat)) = Status3.loadingOrNotStarted :=
  (reachable_states_determine_three_statuses Nat initialState
    ReducerReachable.init).1.mpr rfl

/-- C3 counterexample: neither PageCanvas nor TextLayer tracks the outcome
of its render task through the `useResolver` reducer — the completion
handlers of PageCanvas's canvas render (PageCanvas.tsx 121-127) and of
TextLayer's text-layer render pipeline (TextLayer.tsx 204-244) invoke the
host callbacks directly instead of dispatching an action, so the
RESOLVE/REJECT/RESET machine is not used uniformly across every component
that performs asynchronous work. -/
theorem render_pipelines_do_not_dispatch :
    (taskCompletionHandler AsyncTask.pageCanvasRender
      (Completion.resolved (0 : Nat))).isDispatch = false ∧
    (taskCompletionHandler AsyncTask.textLayerRender
      (Completion.resolved (0 : Nat))).isDispatch = false := by
  decide

/-- C3 (amended): the RESOLVE/REJECT/RESET machine is used for every
*loading* task — Document's source resolution and getDocument load, Page's
getPage, Outline's getOutline, TextLayer's getTextContent — and for
PageSVG's render pipeline: each of these tasks dispatches exactly the
machine action matching the outcome (`RESOLVE value` on resolution,
`REJECT error` on rejection) into a `useResolver` state. The render tasks of
PageCanvas and of TextLayer's text-layer rendering are the exceptions: they
invoke the host callbacks directly and never dispatch into any machine. -/
theorem load_tasks_dispatch_into_resolver (T : Type) (t : AsyncTask)
    (o : Completion T) :
    (t ≠ AsyncTask.pageCanvasRender → t ≠ AsyncTask.textLayerRender →
      taskCompletionHandler t o = .dispatch (actionOfCompletion o)) ∧
    (taskCompletionHandler AsyncTask.pageCanvasRender o).isDispatch
      = false ∧
    (taskCompletionHandler AsyncTask.textLayerRender o).isDispatch
      = false := by
  refine ⟨?_, ?_, ?_⟩
  · intro h1 h2
    cases t with
    | pageCanvasRender => exact absurd rfl h1
    | textLayerRender => exact absurd rfl h2
    | documentSource => rfl
    | documentPdf => rfl
    | pageLoad => rfl
    | outlineLoad => rfl
    | textLayerContent => rfl
    | pageSVGRender => rfl
  · cases o <;> rfl
  · cases o <;> rfl

/-- Witness for the amended C3 theorem, at the Document pdf load task and a
concrete resolved outcome. -/
theorem load_tasks_dispatch_into_resolver_witness :
    taskCompletionHandler AsyncTask.documentPdf (Completion.resolved (5 : Nat))
      = HandlerStep.dispatch (Action.RESOLVE 5) :=
  (load_tasks_dispatch_into_resolver Nat AsyncTask.documentPdf
    (Completion.resolved 5)).1 (by decide) (by decide)

/-- In every reachable lifecycle state, every task other than the current one
has been cancelled by some input change's cleanup. -/
theorem sysReachable_cancelledInv {I T : Type} (s : Sys I T)
    (hr : SysReachable s) : cancelledInv s := by
  induction hr with
  | init =>
      intro id h _
      exact absurd h (by simp [sysInit])
  | step s e _ ih =>
      cases e with
      | change i =>
          intro id h hne
          dsimp [sysStep] at h hne ⊢
          have hid : id ≠ s.nextId := fun heq => hne (by rw [heq])
          have hlt : id < s.nextId := lt_of_le_of_ne (Nat.lt_succ_iff.mp h) hid
          cases hcur : s.cur with
          | none =>
              simp only [hcur]
              exact ih id hlt (by simp [hcur])
          | some t =>
              simp only [hcur]
              by_cases hit : s.cur = some id
              · rw [hcur] at hit
                exact (Option.some.injEq _ _ ▸ hit : t = id) ▸ List.mem_cons_self t _
              · exact List.mem_cons_of_mem t (ih id hlt hit)
      | settle id o =>
          intro j h hne
          dsimp [sysStep] at h hne ⊢
          split_ifs at h hne ⊢
          · exact ih j h hne
          · exact ih j h hne
          · exact ih j h hne

/-- If the current task has not dispatched, the resolver still sits at the
initial (not started) state: any held value comes from the current load. -/
theorem sys_not_dispatched_resolver_init {I T : Type} (s : Sys I T)
    (hr : SysReachable s) (hd : s.curDispatched = false) :
    s.resolver = initialState := by
  induction hr with
  | init => rfl
  | step s e _ ih =>
      cases e with
      | change i => rfl
      | settle id o =>
          dsimp [sysStep] at hd ⊢
          split_ifs at hd ⊢
          · exact ih hd
          · exact ih hd

/-- C4: when an input changes, in-flight asynchronous work is cancelled: the
cleanup of each loading effect (Document source resolution and getDocument
load, Page getPage, Outline getOutline, TextLayer getTextContent) cancels the
still-pending task before the effect re-runs for the new input, so a
superseded task's settlement never dispatches RESOLVE or REJECT into the
state for the new input — settling any task other than the current one
leaves the lifecycle state (in particular the resolver) unchanged. -/
theorem superseded_task_never_dispatches {I T : Type} (s : Sys I T)
    (hr : SysReachable s) (i : I) (t id : Nat) (o : Completion T)
    (hcur : s.cur = some t) (hne : s.cur ≠ some id) :
    t ∈ (sysStep s (.change i)).cancelled ∧
    sysStep s (.settle id o) = s := by
  constructor
  · dsimp [sysStep]
    rw [hcur]
    exact List.mem_cons_self t _
  · have hinv := sysReachable_cancelledInv s hr
    by_cases hmem : id ∈ s.cancelled
    · simp [sysStep, hmem]
    · have hge : ¬ id < s.nextId := fun h => hmem (hinv id h hne)
      simp [sysStep, hmem, hge]

/-- Witness for the C4 theorem: after mounting with input `0`, task `0` is
current; a change to input `1` cancels it, and the settlement of the stale
task id `7` leaves the state untouched. -/
theorem superseded_task_never_dispatches_witness :
    0 ∈ (sysStep (sysStep (sysInit (I := Nat) (T := Nat)) (.change 0))
          (.change 1)).cancelled ∧
    sysStep (sysStep (sysInit (I := Nat) (T := Nat)) (.change 0))
        (.settle 7 (.resolved 3))
      = sysStep (sysInit (I := Nat) (T := Nat)) (.change 0) :=
  superseded_task_never_dispatches
    (sysStep sysInit (.change 0))
    (SysReachable.step sysInit (.change 0) SysReachable.init)
    1 0 7 (.resolved 3) rfl (by decide)

/-- C7: lifecycle sequencing holds: on every input change the reset effect
dispatches RESET before the new load begins, so between two inputs the
machine passes through the not-started state (the resolver equals the
initial state immediately after the change, with the new load not yet
dispatched), and a value obtained for an old input is never still held once
its successor load has begun: in every reachable state whose current load
has not dispatched, the resolver is the initial state. -/
theorem reset_dispatched_between_loads {I T : Type} (s : Sys I T)
    (hr : SysReachable s) (i : I) :
    (sysStep s (.change i)).resolver = initialState ∧
    (sysStep s (.change i)).curDispatched = false ∧
    ∀ s' : Sys I T, SysReachable s' → s'.curDispatched = false →
      s'.resolver = initialState := by
  refine ⟨rfl, rfl, ?_⟩
  intro s' hr' hd'
  exact sys_not_dispatched_resolver_init s' hr' hd'

/-- Witness for the C7 theorem: a concrete input change from the mount
state passes the resolver through the not-started state. -/
theorem reset_dispatched_between_loads_witness :
    (sysStep (sysInit (I := Nat) (T := Nat)) (.change 0)).resolver
      = initialState :=
  (reset_dispatched_between_loads sysInit SysReachable.init 0).1

/-- C5: success and error callbacks are propagated to the host application:
whatever the previous state, after the getDocument promise resolves with `d`
(dispatching `RESOLVE d`) the pdf effect invokes the `onLoadSuccess` prop
(when provided) with exactly `d`, and after it rejects with `e` (dispatching
`REJECT e`) the effect invokes the `onLoadError` prop (when provided) with
the same `e`; since the effect yields a single `LoadCallback`, a given load
outcome triggers exactly one of the two callbacks, once. -/
theorem document_load_callbacks_propagated (T : Type) (s : State T) (d : T)
    (e : JsError) :
    documentPdfEffect (reducer s (.RESOLVE d)) = .success d ∧
    documentPdfEffect (reducer s (.REJECT e)) = .failure e :=
  ⟨rfl, rfl⟩

/-- C8: cancelled renders are reported to nobody: in PageCanvas and PageSVG a
render failure with a cancellation exception emits no warning and never
reaches the host's `onRenderError` prop, and the prop receives the error
exactly when the failure is not a cancellation exception (and the prop was
provided); for PageSVG the failure is routed through the resolver state the
`REJECT` dispatch produced. -/
theorem cancelled_renders_not_reported (T : Type) (hasProp : Bool)
    (e : JsError) (s : State T) :
    pageCanvasOnRenderError hasProp e
      = { warned := !isCancelException e
          reported :=
            if !isCancelException e && hasProp then some e else none } ∧
    pageSVGRenderEffect hasProp (reducer s (.REJECT e))
      = { warned := !isCancelException e
          reported :=
            if !isCancelException e && hasProp then some e else none } := by
  by_cases hc : isCancelException e
  · simp [pageCanvasOnRenderError, pageSVGRenderEffect, reducer, hc]
  · by_cases hp : hasProp <;>
      simp [pageCanvasOnRenderError, pageSVGRenderEffect, reducer, hc, hp]

/-- C9: in the Page component, whenever at least one of the `pageNumber` and
`pageIndex` props is provided the derived values satisfy
`pageNumber = pageIndex + 1`; when both are provided the `pageNumber` prop
takes precedence (the derived index is `pageNumber - 1`); when neither is
provided both derived values are `null`. -/
theorem page_number_is_index_plus_one (pn pi : Option Int) :
    (pn.isSome ∨ pi.isSome →
      ∃ i, derivedPageIndex pn pi = some i ∧
        derivedPageNumber pn pi = some (i + 1)) ∧
    (∀ n, pn = some n →
      derivedPageIndex pn pi = some (n - 1) ∧
      derivedPageNumber pn pi = some n) ∧
    (pn = none → pi = none →
      derivedPageIndex pn pi = none ∧ derivedPageNumber pn pi = none) := by
  rcases pn with _ | n
  · rcases pi with _ | i
    · refine ⟨?_, ?_, ?_⟩
      · intro hor; simp at hor
      · intro n hn; cases hn
      · intro _ _
        exact ⟨rfl, rfl⟩
    · refine ⟨?_, ?_, ?_⟩
      · intro _
        exact ⟨i, by simp [derivedPageIndex, isProvided],
          by simp [derivedPageNumber, isProvided]⟩
      · intro n hn; cases hn
      · intro _ hpi; cases hpi
  · refine ⟨?_, ?_, ?_⟩
    · intro _
      refine ⟨n - 1, by simp [derivedPageIndex, isProvided], ?_⟩
      simp only [derivedPageNumber]
      congr 1
      omega
    · intro m hm
      cases hm
      exact ⟨by simp [derivedPageIndex, isProvided], rfl⟩
    · intro hn; cases hn

/-- Witness for the C9 theorem with both props provided and disagreeing
(`pageNumber = 5`, `pageIndex = 3`): the `pageNumber` prop wins. -/
theorem page_number_is_index_plus_one_witness :
    derivedPageIndex (some 5) (some 3) = some 4 ∧
    derivedPageNumber (some 5) (some 3) = some 5 :=
  (page_number_is_index_plus_one (some 5) (some 3)).2.1 5 rfl

/-- C10 counterexample: with a zero `width` prop and a nonzero `height` prop
the code ignores `width` (it is falsy) and scales by the height, while the
claim's reference definition gives `width` precedence and yields scale 0. -/
theorem zero_width_scale_counterexample :
    computeScale none (some 0) (some 2) (some { width := 1, height := 1 })
      ≠ referenceScale none (some 0) (some 2)
        (some { width := 1, height := 1 }) := by
  norm_num [computeScale, referenceScale, truthyNum]

/-- C10 (amended): for every loaded page the effective scale equals
`(scaleProps ?? 1)` multiplied by a page scale factor that is
`width / viewport.width` when the `width` prop is given and nonzero, else
`height / viewport.height` when the `height` prop is given and nonzero, else
1 — a zero width or height is treated as not given, since the code tests
JavaScript truthiness; when no page is loaded the computed scale is null. -/
theorem scale_matches_reference_up_to_truthiness
    (sp w h : Option ℚ) (p : Option ViewportDims) :
    computeScale sp w h p
      = referenceScale sp (givenNonzero w) (givenNonzero h) p := by
  cases p with
  | none => rfl
  | some vp =>
      rcases w with _ | wv
      · rcases h with _ | hv
        · rfl
        · by_cases hh : hv = 0 <;>
            simp [computeScale, referenceScale, givenNonzero, truthyNum, hh]
      · rcases h with _ | hv
        · by_cases hw : wv = 0 <;>
            simp [computeScale, referenceScale, givenNonzero, truthyNum, hw]
        · by_cases hw : wv = 0 <;> by_cases hh : hv = 0 <;>
            simp [computeScale, referenceScale, givenNonzero, truthyNum,
              hw, hh]

/-- C6 counterexample: the empty string is a string but is falsy, so the
code resolves it to `null`, while the reference definition of the claim
resolves any non-data-URI string to `{ url: file }`. -/
theorem empty_string_file_counterexample :
    findDocumentSource id true (.strF "")
      ≠ referenceSource id true (.strF "") := by
  intro h
  have h1 : findDocumentSource id true (.strF "")
      = Except.ok Source.nullS := rfl
  have h2 : referenceSource id true (.strF "")
      = Except.ok (Source.objS
          { data := none, range := none, url := some (.str "")
            others := [] }) := rfl
  rw [h1, h2] at h
  injection h with h3
  exact Source.noConfusion h3

/-- C6 (amended): `findDocumentSource` equals the claim's reference
definition on every file input, except that any falsy file value — not only
an absent one, but also the empty string, `0` and `false` — resolves to
`null` before the other clauses are consulted. -/
theorem findDocumentSource_matches_reference (conv : String → String)
    (isBrowser : Bool) (f : File) :
    findDocumentSource conv isBrowser f
      = if falsy f then .ok .nullS else referenceSource conv isBrowser f := by
  cases f <;> simp [findDocumentSource, referenceSource, falsy]

end VuePdf
